import Mathlib

/-!
A shallow embedding of `src/protocols/ASVspoof2019-LA.py`, a script that
converts ASVspoof2019-LA protocol files plus a directory of FLAC files into a
single CSV metadata table.  Files on disk are modelled by an explicit
environment (`Env`); reading an audio header (`torchaudio.info`) is modelled as
a lookup in that environment; a Python exception is modelled as `Except.error`.
DataFrame rows are modelled as ordered association lists from column names to
cell values.
-/

namespace ASVspoof2019LA

/-- A cell value of a DataFrame row: string, machine integer, float
(modelled as an exact rational), or pandas NaN (missing). -/
inductive Value where
  | vStr (s : String)
  | vInt (n : ℤ)
  | vRat (q : ℚ)
  | vNan
deriving DecidableEq, Repr

/-- A DataFrame row: an ordered association list of (column name, value). -/
abbrev Record := List (String × Value)

/-- `row[k]` (read): first value stored under key `k`, if any. -/
def getField (r : Record) (k : String) : Option Value :=
  (r.find? (fun p => p.1 == k)).map Prod.snd

/-- `row[k]` read as a string, with `""` for a non-string or absent cell. -/
def getStr (r : Record) (k : String) : String :=
  match getField r k with
  | some (.vStr s) => s
  | _ => ""

/-- `row[k] = v` (write): pandas keeps the position of an existing key and
appends a fresh key at the end. -/
def setField (r : Record) (k : String) (v : Value) : Record :=
  if r.any (fun p => p.1 == k) then
    r.map (fun p => if p.1 == k then (k, v) else p)
  else
    r ++ [(k, v)]

/-- `df.drop(columns=[k])`: remove every cell stored under key `k`. -/
def dropField (r : Record) (k : String) : Record :=
  r.filter (fun p => p.1 ≠ k)

/-! ### Python string primitives -/

/-- Does the first list occur at the head of the second? -/
def startsWithL : List Char → List Char → Bool
  | [], _ => true
  | _ :: _, [] => false
  | a :: as, b :: bs => a == b && startsWithL as bs

/-- Does the first list occur as a contiguous run anywhere in the second? -/
def containsSub (needle : List Char) : List Char → Bool
  | [] => startsWithL needle []
  | c :: t => startsWithL needle (c :: t) || containsSub needle t

/-- Python's `needle in hay` on strings. -/
def pyIn (needle hay : String) : Bool :=
  containsSub needle.toList hay.toList

/-- Worker for `str.replace`: scan the list left to right, replacing each
non-overlapping occurrence of `old` by `new`.  `skip > 0` means we are inside
an occurrence already emitted: drop `skip` more characters. -/
def replAux (old new : List Char) : List Char → Nat → List Char
  | [], _ => []
  | _ :: rest, (k + 1) => replAux old new rest k
  | c :: rest, 0 =>
    if startsWithL old (c :: rest) && !old.isEmpty then
      new ++ replAux old new rest (old.length - 1)
    else
      c :: replAux old new rest 0

/-- Python's `s.replace(old, new)` for non-empty `old` (the script only
replaces the non-empty string `root_folder`). -/
def pyReplace (s old new : String) : String :=
  ⟨replAux old.toList new.toList s.toList 0⟩

/-- Split a character list at every space (the `sep=' '` single-character
delimiter of `pd.read_csv`); `acc` holds the current field reversed. -/
def splitSpaceAux : List Char → List Char → List String
  | [], acc => [⟨acc.reverse⟩]
  | c :: rest, acc =>
    if c = ' ' then ⟨acc.reverse⟩ :: splitSpaceAux rest []
    else splitSpaceAux rest (c :: acc)

/-- Split a string on single spaces, keeping empty fields. -/
def splitOnSpace (s : String) : List String :=
  splitSpaceAux s.toList []

/-! ### Python numeric primitives -/

/-- Round a rational to the nearest integer, ties to even (Python's `round`):
`f` is the floor, and `r2 = 2 * den * (q - f)` compares the fractional part
against 1/2 in integers. -/
def roundHalfEven (q : ℚ) : ℤ :=
  let d : ℤ := (q.den : ℤ)
  let f : ℤ := Int.fdiv q.num d
  let r2 : ℤ := 2 * (q.num - f * d)
  if r2 < d then f
  else if r2 > d then f + 1
  else if f % 2 = 0 then f else f + 1

/-- Python's `round(x, 2)`. -/
def round2 (q : ℚ) : ℚ := (roundHalfEven (q * 100) : ℚ) / 100

/-! ### Script constants (module level of the source) -/

def root_folder : String := "./dataset"

def dataset_name : String := "ASVspoof2019_LA"

/-- `ID_PREFIX` in the source. -/
def ID_TAG : String := "ASV19LA-"

def data_folder : String := root_folder ++ "/" ++ dataset_name

def output_csv : String := dataset_name ++ ".csv"

def protocol_files : List String :=
  ["ASVspoof2019.LA.cm.train.trn.txt",
   "ASVspoof2019.LA.cm.dev.trl.txt",
   "ASVspoof2019.LA.cm.eval.trl.txt"]

/-! ### Environment: the read-only filesystem -/

/-- Result of `torchaudio.info` on an audio file header. -/
structure AudioInfo where
  sample_rate : ℤ
  num_channels : ℤ
  num_frames : ℤ
  encoding : String
  bits_per_sample : ℤ
deriving DecidableEq, Repr

/-- The filesystem as the script observes it: the lines of each existing
protocol file, and the header metadata of each existing audio file
(`none` models `os.path.exists` returning `False`). -/
structure Env where
  protocolLines : String → Option (List String)
  audioInfo : String → Option AudioInfo

/-! ### read_protocol -/

/-- The `converter_label` lambda in `read_protocol`. -/
def converter_label (x : String) : String :=
  if x == "bonafide" then "real" else "fake"

/-- Parse one space-separated protocol line into a row with the five named
columns, with the label converter applied to the `Label` column
(`pd.read_csv(..., sep=' ', names=[...], converters={'Label': ...})`). -/
def parseProtocolLine (line : String) : Record :=
  let fields := splitOnSpace line
  [("Speaker", .vStr (fields.getD 0 "")),
   ("ID", .vStr (fields.getD 1 "")),
   ("UN", .vStr (fields.getD 2 "")),
   ("Attack", .vStr (fields.getD 3 "")),
   ("Label", .vStr (converter_label (fields.getD 4 "")))]

/-- `read_protocol`: load the whole protocol file as a list of rows. -/
def read_protocol (lines : List String) : List Record :=
  lines.map parseProtocolLine

/-! ### collect_audio_metadata -/

/-- Subset directory and subset id inferred from the raw utterance ID. -/
def subsetOf (id : String) : String × String :=
  if pyIn "T_" id then ("ASVspoof2019_LA_train", "train")
  else if pyIn "D_" id then ("ASVspoof2019_LA_dev", "valid")
  else ("ASVspoof2019_LA_eval", "test")

/-- The audio path constructed for a raw utterance ID:
`os.path.join(data_folder, subset, "flac", f"{id}.flac")`. -/
def audioPathOf (id : String) : String :=
  data_folder ++ "/" ++ (subsetOf id).1 ++ "/flac/" ++ id ++ ".flac"

/-- `__get_audio_meta`: enrich one row.  When the audio file is absent the
source assigns the sentinel locals but never assigns the local `lang`, so the
final `row['Language'] = lang` raises `UnboundLocalError`; we model that
exception as `Except.error`. -/
def getAudioMeta (env : Env) (row : Record) : Except String Record :=
  let id := getStr row "ID"
  let subset_id := (subsetOf id).2
  let file_path := audioPathOf id
  let file_id := ID_TAG ++ id
  match env.audioInfo file_path with
  | some metainfo =>
    let sample_rate := metainfo.sample_rate
    let num_channels := metainfo.num_channels
    let duration := round2 ((metainfo.num_frames : ℚ) / (sample_rate : ℚ))
    let filepath := pyReplace file_path root_folder "$ROOT/"
    let encoding := metainfo.encoding
    let bitpersample := metainfo.bits_per_sample
    let lang := "EN"
    let r1 := setField row "ID" (.vStr file_id)
    let r2 := setField r1 "Duration" (.vRat duration)
    let r3 := setField r2 "SampleRate" (.vInt sample_rate)
    let r4 := setField r3 "Path" (.vStr filepath)
    let r5 := setField r4 "Proportion" (.vStr subset_id)
    let r6 := setField r5 "AudioChannel" (.vInt num_channels)
    let r7 := setField r6 "AudioEncoding" (.vStr encoding)
    let r8 := setField r7 "AudioBitSample" (.vInt bitpersample)
    .ok (setField r8 "Language" (.vStr lang))
  | none =>
    -- duration = -1, sample_rate = -1, filepath = '', encoding = '',
    -- bitpersample = -1, num_channels = -1 are assigned, but the local
    -- `lang` is not, so `row['Language'] = lang` raises.
    .error "UnboundLocalError: local variable referenced before assignment"

/-- `collect_audio_metadata`: apply `__get_audio_meta` to every row.
`parallel_apply` runs rows independently and rejoins the results by row
position, so it is an in-order effectful map; an exception raised in any
row propagates and aborts the whole call. -/
def collect_audio_metadata (env : Env) : List Record → Except String (List Record)
  | [] => .ok []
  | r :: rs =>
    match getAudioMeta env r with
    | .error e => .error e
    | .ok r' =>
      match collect_audio_metadata env rs with
      | .error e => .error e
      | .ok rest => .ok (r' :: rest)

/-! ### write_csv -/

/-- The fixed output column order of `write_csv`. -/
def csvHeader : List String :=
  ["ID", "Label", "Duration", "SampleRate", "Path", "Attack", "Speaker",
   "Proportion", "AudioChannel", "AudioEncoding", "AudioBitSample",
   "Language"]

/-- The union of column names over the records, in first-seen order
(the columns of `pd.DataFrame(list_of_dicts)`). -/
def columnsOf (records : List Record) : List String :=
  (records.flatMap (fun r => r.map Prod.fst)).dedup

/-- The produced CSV: a header row and the data rows. -/
structure Csv where
  headerRow : List String
  rows : List (List Value)
deriving DecidableEq, Repr

/-- `write_csv`: build a DataFrame from the records, select the fixed columns
(`metadata[header]` raises `KeyError` when a column is absent from the
DataFrame — in particular `pd.DataFrame([])` has no columns at all), and
serialize.  A record lacking a selected column yields NaN in that cell. -/
def write_csv (records : List Record) : Except String Csv :=
  if csvHeader.all (fun h => (columnsOf records).contains h) then
    .ok ⟨csvHeader,
      records.map (fun r => csvHeader.map (fun k => (getField r k).getD .vNan))⟩
  else
    .error "KeyError: columns not in index"

/-! ### __main__ -/

/-- Path of a protocol file:
`os.path.join(data_folder, 'ASVspoof2019_LA_cm_protocols', protocol_file)`. -/
def protoPath (f : String) : String :=
  data_folder ++ "/" ++ "ASVspoof2019_LA_cm_protocols" ++ "/" ++ f

/-- One iteration of the main loop: a missing protocol file is skipped
(`continue`) and contributes no records; an existing one is read, enriched,
has its `UN` column dropped, and contributes its records. -/
def fileRecords (env : Env) (f : String) : Except String (List Record) :=
  match env.protocolLines (protoPath f) with
  | none => .ok []
  | some lines =>
    match collect_audio_metadata env (read_protocol lines) with
    | .error e => .error e
    | .ok metadata => .ok (metadata.map (fun r => dropField r "UN"))

/-- The main loop over the remaining protocol files, accumulating
`combined_metadata` in file order. -/
def mainLoop (env : Env) : List String → Except String (List Record)
  | [] => .ok []
  | f :: fs =>
    match fileRecords env f with
    | .error e => .error e
    | .ok recs =>
      match mainLoop env fs with
      | .error e => .error e
      | .ok rest => .ok (recs ++ rest)

/-- `combined_metadata` after the full main loop. -/
def combinedMetadata (env : Env) : Except String (List Record) :=
  mainLoop env protocol_files

/-- The whole `__main__` block: accumulate the records of the three protocol
files, then write the CSV once at the end. -/
def mainRun (env : Env) : Except String Csv :=
  match combinedMetadata env with
  | .error e => .error e
  | .ok records => write_csv records

/-! ### Derived forms of the enrichment output -/

/-- Raw field `i` of a protocol line. -/
def rawField (line : String) (i : Nat) : String :=
  (splitOnSpace line).getD i ""

/-- The row `__get_audio_meta` returns for a parsed protocol line whose audio
file exists with header `info`: the five parsed cells with `ID` rewritten in
place, followed by the eight appended cells. -/
def enrichedOf (line : String) (info : AudioInfo) : Record :=
  [("Speaker", .vStr (rawField line 0)),
   ("ID", .vStr (ID_TAG ++ rawField line 1)),
   ("UN", .vStr (rawField line 2)),
   ("Attack", .vStr (rawField line 3)),
   ("Label", .vStr (converter_label (rawField line 4))),
   ("Duration", .vRat (round2 ((info.num_frames : ℚ) / (info.sample_rate : ℚ)))),
   ("SampleRate", .vInt info.sample_rate),
   ("Path", .vStr (pyReplace (audioPathOf (rawField line 1)) root_folder "$ROOT/")),
   ("Proportion", .vStr (subsetOf (rawField line 1)).2),
   ("AudioChannel", .vInt info.num_channels),
   ("AudioEncoding", .vStr info.encoding),
   ("AudioBitSample", .vInt info.bits_per_sample),
   ("Language", .vStr "EN")]

/-- The part of an audio path after its `root_folder` prefix. -/
def rootSuffix (id : String) : String :=
  "/" ++ dataset_name ++ "/" ++ (subsetOf id).1 ++ "/flac/" ++ id ++ ".flac"

/-! ### Concrete sample filesystems used as witnesses -/

/-- The dev protocol line used as the spec's worked example. -/
def devLine : String := "LA_0069 LA_D_1047731 - - bonafide"

def trainLine : String := "LA_0079 LA_T_1138215 - - bonafide"

def evalLine : String := "LA_0001 LA_E_2834763 - A11 spoof"

/-- A 2-second mono 16 kHz FLAC header. -/
def devInfo : AudioInfo := ⟨16000, 1, 32000, "FLAC", 16⟩

/-- A completely empty filesystem: every audio file is missing. -/
def envC1 : Env where
  protocolLines _ := none
  audioInfo _ := none

/-- Only the dev protocol file exists (one line); its audio file is absent. -/
def envC2 : Env where
  protocolLines p :=
    if p = protoPath "ASVspoof2019.LA.cm.dev.trl.txt" then some [devLine]
    else none
  audioInfo _ := none

/-- The spec's worked example: dev protocol with one line whose audio file
exists with a 16 kHz, 32000-frame header. -/
def envC9 : Env where
  protocolLines p :=
    if p = protoPath "ASVspoof2019.LA.cm.dev.trl.txt" then some [devLine]
    else none
  audioInfo p :=
    if p = audioPathOf "LA_D_1047731" then some devInfo else none

/-- Train and eval protocol files exist, the dev protocol file is missing;
all referenced audio files exist. -/
def envC7 : Env where
  protocolLines p :=
    if p = protoPath "ASVspoof2019.LA.cm.train.trn.txt" then some [trainLine]
    else if p = protoPath "ASVspoof2019.LA.cm.eval.trl.txt" then some [evalLine]
    else none
  audioInfo p :=
    if p = audioPathOf "LA_T_1138215" then some devInfo
    else if p = audioPathOf "LA_E_2834763" then some devInfo
    else none

/-- All three protocol files exist with one line each; all audio exists. -/
def env8 : Env where
  protocolLines p :=
    if p = protoPath "ASVspoof2019.LA.cm.train.trn.txt" then some [trainLine]
    else if p = protoPath "ASVspoof2019.LA.cm.dev.trl.txt" then some [devLine]
    else if p = protoPath "ASVspoof2019.LA.cm.eval.trl.txt" then some [evalLine]
    else none
  audioInfo p :=
    if p = audioPathOf "LA_T_1138215" then some devInfo
    else if p = audioPathOf "LA_D_1047731" then some devInfo
    else if p = audioPathOf "LA_E_2834763" then some devInfo
    else none

/-- A record holding all twelve output columns plus `UN`, deliberately in an
order different from the output header. -/
def recScrambled : Record :=
  [("UN", .vStr "-"), ("Language", .vStr "EN"), ("ID", .vStr "ASV19LA-x"),
   ("Label", .vStr "real"), ("Proportion", .vStr "test"), ("Duration", .vRat 2),
   ("SampleRate", .vInt 16000), ("Path", .vStr "$ROOT//x"), ("Attack", .vStr "-"),
   ("Speaker", .vStr "LA_0001"), ("AudioChannel", .vInt 1),
   ("AudioEncoding", .vStr "FLAC"), ("AudioBitSample", .vInt 16)]

/-- The CSV `write_csv` produces from `[recScrambled]`. -/
def csv6 : Csv :=
  ⟨csvHeader,
   [[.vStr "ASV19LA-x", .vStr "real", .vRat 2, .vInt 16000, .vStr "$ROOT//x",
     .vStr "-", .vStr "LA_0001", .vStr "test", .vInt 1, .vStr "FLAC",
     .vInt 16, .vStr "EN"]]⟩

/-- A protocol line whose utterance ID itself contains the data-root string
`./dataset` (and the substring `T_`). -/
def evilLine : String := "sp x./datasetT_y - - bonafide"

/-- A filesystem where the audio file of `evilLine`'s ID exists. -/
def envC3 : Env where
  protocolLines _ := none
  audioInfo p := if p = audioPathOf "x./datasetT_y" then some devInfo else none

/-! ## Lemmas about the string primitives -/

theorem startsWithL_self_append (s rest : List Char) :
    startsWithL s (s ++ rest) = true := by
  induction s with
  | nil => rfl
  | cons c cs ih => simp [startsWithL, ih]

theorem replAux_skip (old new u rest : List Char) :
    replAux old new (u ++ rest) u.length = replAux old new rest 0 := by
  induction u with
  | nil => rfl
  | cons c cs ih => simpa [replAux] using ih

theorem replAux_of_not_contains (old new l : List Char)
    (h : containsSub old l = false) : replAux old new l 0 = l := by
  induction l with
  | nil => rfl
  | cons c t ih =>
    simp only [containsSub, Bool.or_eq_false_iff] at h
    simp [replAux, h.1, ih h.2]

/-- `str.replace` on a string that starts with `old` and contains no further
occurrence of `old`: exactly the leading occurrence is replaced. -/
theorem pyReplace_head (old new rest : String) (hne : old.toList ≠ [])
    (h : containsSub old.toList rest.toList = false) :
    pyReplace (old ++ rest) old new = new ++ rest := by
  apply String.ext
  rcases hd : old.toList with _ | ⟨c, cs⟩
  · exact absurd hd hne
  · have hdata : (old ++ rest).toList = old.toList ++ rest.toList :=
      String.data_append old rest
    simp only [pyReplace, hdata, hd, List.cons_append, replAux,
      startsWithL_self_append (c :: cs) rest.toList |>.symm]
    have hsw : startsWithL (c :: cs) (c :: (cs ++ rest.toList)) = true := by
      simpa using startsWithL_self_append (c :: cs) rest.toList
    simp only [hd] at hsw
    simp only [hsw, List.isEmpty_cons, Bool.not_false, Bool.and_self, if_pos]
    have hskip : replAux (c :: cs) new.toList (cs ++ rest.toList)
        ((c :: cs).length - 1) = replAux (c :: cs) new.toList rest.toList 0 := by
      simpa using replAux_skip (c :: cs) new.toList cs rest.toList
    rw [hskip, replAux_of_not_contains _ _ _ (hd ▸ h)]
    simp [String.data_append]

/-! ## The enriched row produced on an existing audio file -/

theorem getStr_parse_ID (line : String) :
    getStr (parseProtocolLine line) "ID" = rawField line 1 := rfl

theorem parseProtocolLine_eq (line : String) :
    parseProtocolLine line =
      [("Speaker", .vStr (rawField line 0)),
       ("ID", .vStr (rawField line 1)),
       ("UN", .vStr (rawField line 2)),
       ("Attack", .vStr (rawField line 3)),
       ("Label", .vStr (converter_label (rawField line 4)))] := rfl

theorem setStep1 (v0 v1 v2 v3 v4 w : Value) :
    setField [("Speaker", v0), ("ID", v1), ("UN", v2), ("Attack", v3),
      ("Label", v4)] "ID" w =
    [("Speaker", v0), ("ID", w), ("UN", v2), ("Attack", v3),
      ("Label", v4)] := rfl

theorem setStep2 (v0 v1 v2 v3 v4 w : Value) :
    setField [("Speaker", v0), ("ID", v1), ("UN", v2), ("Attack", v3),
      ("Label", v4)] "Duration" w =
    [("Speaker", v0), ("ID", v1), ("UN", v2), ("Attack", v3),
      ("Label", v4), ("Duration", w)] := rfl

theorem setStep3 (v0 v1 v2 v3 v4 v5 w : Value) :
    setField [("Speaker", v0), ("ID", v1), ("UN", v2), ("Attack", v3),
      ("Label", v4), ("Duration", v5)] "SampleRate" w =
    [("Speaker", v0), ("ID", v1), ("UN", v2), ("Attack", v3),
      ("Label", v4), ("Duration", v5), ("SampleRate", w)] := rfl

theorem setStep4 (v0 v1 v2 v3 v4 v5 v6 w : Value) :
    setField [("Speaker", v0), ("ID", v1), ("UN", v2), ("Attack", v3),
      ("Label", v4), ("Duration", v5), ("SampleRate", v6)] "Path" w =
    [("Speaker", v0), ("ID", v1), ("UN", v2), ("Attack", v3),
      ("Label", v4), ("Duration", v5), ("SampleRate", v6), ("Path", w)] := rfl

theorem setStep5 (v0 v1 v2 v3 v4 v5 v6 v7 w : Value) :
    setField [("Speaker", v0), ("ID", v1), ("UN", v2), ("Attack", v3),
      ("Label", v4), ("Duration", v5), ("SampleRate", v6), ("Path", v7)]
      "Proportion" w =
    [("Speaker", v0), ("ID", v1), ("UN", v2), ("Attack", v3),
      ("Label", v4), ("Duration", v5), ("SampleRate", v6), ("Path", v7),
      ("Proportion", w)] := rfl

theorem setStep6 (v0 v1 v2 v3 v4 v5 v6 v7 v8 w : Value) :
    setField [("Speaker", v0), ("ID", v1), ("UN", v2), ("Attack", v3),
      ("Label", v4), ("Duration", v5), ("SampleRate", v6), ("Path", v7),
      ("Proportion", v8)] "AudioChannel" w =
    [("Speaker", v0), ("ID", v1), ("UN", v2), ("Attack", v3),
      ("Label", v4), ("Duration", v5), ("SampleRate", v6), ("Path", v7),
      ("Proportion", v8), ("AudioChannel", w)] := rfl

theorem setStep7 (v0 v1 v2 v3 v4 v5 v6 v7 v8 v9 w : Value) :
    setField [("Speaker", v0), ("ID", v1), ("UN", v2), ("Attack", v3),
      ("Label", v4), ("Duration", v5), ("SampleRate", v6), ("Path", v7),
      ("Proportion", v8), ("AudioChannel", v9)] "AudioEncoding" w =
    [("Speaker", v0), ("ID", v1), ("UN", v2), ("Attack", v3),
      ("Label", v4), ("Duration", v5), ("SampleRate", v6), ("Path", v7),
      ("Proportion", v8), ("AudioChannel", v9), ("AudioEncoding", w)] := rfl

theorem setStep8 (v0 v1 v2 v3 v4 v5 v6 v7 v8 v9 v10 w : Value) :
    setField [("Speaker", v0), ("ID", v1), ("UN", v2), ("Attack", v3),
      ("Label", v4), ("Duration", v5), ("SampleRate", v6), ("Path", v7),
      ("Proportion", v8), ("AudioChannel", v9), ("AudioEncoding", v10)]
      "AudioBitSample" w =
    [("Speaker", v0), ("ID", v1), ("UN", v2), ("Attack", v3),
      ("Label", v4), ("Duration", v5), ("SampleRate", v6), ("Path", v7),
      ("Proportion", v8), ("AudioChannel", v9), ("AudioEncoding", v10),
      ("AudioBitSample", w)] := rfl

theorem setStep9 (v0 v1 v2 v3 v4 v5 v6 v7 v8 v9 v10 v11 w : Value) :
    setField [("Speaker", v0), ("ID", v1), ("UN", v2), ("Attack", v3),
      ("Label", v4), ("Duration", v5), ("SampleRate", v6), ("Path", v7),
      ("Proportion", v8), ("AudioChannel", v9), ("AudioEncoding", v10),
      ("AudioBitSample", v11)] "Language" w =
    [("Speaker", v0), ("ID", v1), ("UN", v2), ("Attack", v3),
      ("Label", v4), ("Duration", v5), ("SampleRate", v6), ("Path", v7),
      ("Proportion", v8), ("AudioChannel", v9), ("AudioEncoding", v10),
      ("AudioBitSample", v11), ("Language", w)] := rfl

theorem getStr_fields_ID (v0 v2 v3 v4 : Value) (s : String) :
    getStr [("Speaker", v0), ("ID", Value.vStr s), ("UN", v2), ("Attack", v3),
      ("Label", v4)] "ID" = s := rfl

theorem getAudioMeta_parse_ok (env : Env) (line : String) (info : AudioInfo)
    (hfile : env.audioInfo (audioPathOf (rawField line 1)) = some info) :
    getAudioMeta env (parseProtocolLine line) = .ok (enrichedOf line info) := by
  simp only [getAudioMeta, parseProtocolLine_eq, getStr_fields_ID, hfile,
    setStep1, setStep2, setStep3, setStep4, setStep5, setStep6, setStep7,
    setStep8, setStep9]
  rfl

theorem getAudioMeta_parse_missing (env : Env) (line : String)
    (hfile : env.audioInfo (audioPathOf (rawField line 1)) = none) :
    getAudioMeta env (parseProtocolLine line) =
      .error "UnboundLocalError: local variable referenced before assignment" := by
  simp only [getAudioMeta, parseProtocolLine_eq, getStr_fields_ID, hfile]

/-! ## Lemmas about the pipeline -/

theorem collect_ok_length (env : Env) (rows : List Record) :
    ∀ l', collect_audio_metadata env rows = .ok l' → l'.length = rows.length := by
  induction rows with
  | nil =>
    intro l' h
    simp only [collect_audio_metadata] at h
    cases h
    rfl
  | cons r rs ih =>
    intro l' h
    simp only [collect_audio_metadata] at h
    cases hr : getAudioMeta env r <;> rw [hr] at h
    · exact Except.noConfusion h
    · cases hrest : collect_audio_metadata env rs <;> rw [hrest] at h
      · exact Except.noConfusion h
      · cases h
        simp [ih _ hrest]

theorem collect_ok_get (env : Env) (rows : List Record) :
    ∀ l', collect_audio_metadata env rows = .ok l' →
      ∀ i (hi : i < rows.length) (hi' : i < l'.length),
        getAudioMeta env (rows.get ⟨i, hi⟩) = .ok (l'.get ⟨i, hi'⟩) := by
  induction rows with
  | nil => intro l' _ i hi; exact absurd hi (by simp)
  | cons r rs ih =>
    intro l' h i hi hi'
    simp only [collect_audio_metadata] at h
    cases hr : getAudioMeta env r <;> rw [hr] at h
    · exact Except.noConfusion h
    · cases hrest : collect_audio_metadata env rs <;> rw [hrest] at h
      · exact Except.noConfusion h
      · cases h
        cases i with
        | zero => simpa using hr
        | succ n =>
          exact ih _ hrest n (by simpa using hi) (by simpa using hi')

theorem mainLoop_cons (env : Env) (f : String) (fs : List String) :
    mainLoop env (f :: fs) =
      match fileRecords env f with
      | .error e => .error e
      | .ok recs =>
        match mainLoop env fs with
        | .error e => .error e
        | .ok rest => .ok (recs ++ rest) := rfl

theorem fileRecords_of_missing (env : Env) (f : String)
    (h : env.protocolLines (protoPath f) = none) :
    fileRecords env f = .ok [] := by
  unfold fileRecords
  rw [h]

theorem mainLoop_skip (env : Env) (f : String) (fs : List String)
    (h : env.protocolLines (protoPath f) = none) :
    mainLoop env (f :: fs) = mainLoop env fs := by
  rw [mainLoop_cons, fileRecords_of_missing env f h]
  cases hrest : mainLoop env fs <;> simp

theorem mainLoop_congr_tail (env : Env) (f : String) (fs fs' : List String)
    (h : mainLoop env fs = mainLoop env fs') :
    mainLoop env (f :: fs) = mainLoop env (f :: fs') := by
  rw [mainLoop_cons, mainLoop_cons, h]

theorem audioPathOf_decomp (id : String) :
    audioPathOf id = root_folder ++ rootSuffix id := by
  apply String.ext
  simp [audioPathOf, rootSuffix, data_folder, String.data_append,
    List.append_assoc]

/-! ## The claims -/

/-- Claim C1 (code bug): the spec says a missing audio file leaves the row in
place with sentinel values and only a warning; the code instead raises
`UnboundLocalError`, because the missing-file branch of `__get_audio_meta`
never assigns the local `lang` that `row['Language'] = lang` then reads.
This theorem evaluates the enrichment at such a row: it aborts instead of
producing the sentinel row. -/
theorem claim_C1 :
    getAudioMeta envC1 (parseProtocolLine devLine) =
      .error "UnboundLocalError: local variable referenced before assignment" :=
  rfl

/-- Claim C2 (code bug): with an existing one-line dev protocol file whose
audio file is absent, the spec expects one output row; the run instead aborts
with `UnboundLocalError` (see C1) and writes no CSV at all. -/
theorem claim_C2 :
    envC2.protocolLines (protoPath "ASVspoof2019.LA.cm.dev.trl.txt") =
      some [devLine] ∧
    mainRun envC2 =
      .error "UnboundLocalError: local variable referenced before assignment" :=
  ⟨rfl, rfl⟩

/-- Claim C9: the input line `LA_0069 LA_D_1047731 - - bonafide` in the dev
protocol, with an existing audio file of sample_rate 16000 and num_frames
32000, yields exactly one record with ID `ASV19LA-LA_D_1047731`, Label `real`,
Duration 2, Proportion `valid`. -/
theorem claim_C9 :
    combinedMetadata envC9 = .ok [dropField (enrichedOf devLine devInfo) "UN"] ∧
    getStr (dropField (enrichedOf devLine devInfo) "UN") "ID" =
      "ASV19LA-LA_D_1047731" ∧
    getStr (dropField (enrichedOf devLine devInfo) "UN") "Label" = "real" ∧
    getField (dropField (enrichedOf devLine devInfo) "UN") "Duration" =
      some (.vRat 2) ∧
    getStr (dropField (enrichedOf devLine devInfo) "UN") "Proportion" =
      "valid" := by
  refine ⟨rfl, rfl, rfl, ?_, rfl⟩
  have hdur : round2 (((32000 : ℤ) : ℚ) / ((16000 : ℤ) : ℚ)) = 2 := by
    norm_num [round2, roundHalfEven]
  calc getField (dropField (enrichedOf devLine devInfo) "UN") "Duration"
      = some (.vRat (round2 (((32000 : ℤ) : ℚ) / ((16000 : ℤ) : ℚ)))) := rfl
    _ = some (.vRat 2) := by rw [hdur]

/-- Claim C4: the parsed `Label` cell of every protocol line is the raw fifth
field put through `converter_label`; it is `real` exactly for raw `bonafide`
and `fake` for everything else, and the enrichment keeps it verbatim. -/
theorem claim_C4 (line : String) :
    getField (parseProtocolLine line) "Label"
        = some (.vStr (converter_label (rawField line 4))) ∧
    (converter_label (rawField line 4) = "real"
        ↔ rawField line 4 = "bonafide") ∧
    (converter_label (rawField line 4) = "real"
        ∨ converter_label (rawField line 4) = "fake") ∧
    (∀ info : AudioInfo,
        getStr (enrichedOf line info) "Label" = converter_label (rawField line 4)) := by
  refine ⟨rfl, ?_, ?_, fun info => rfl⟩
  · unfold converter_label
    by_cases hb : rawField line 4 = "bonafide"
    · simp [hb]
    · have hbeq : (rawField line 4 == "bonafide") = false := by
        simpa using hb
      simp [hbeq, hb]
  · unfold converter_label
    split <;> simp

theorem getAudioMeta_parse_ok_inv (env : Env) (line : String) (r' : Record)
    (h : getAudioMeta env (parseProtocolLine line) = .ok r') :
    ∃ info, env.audioInfo (audioPathOf (rawField line 1)) = some info ∧
      r' = enrichedOf line info := by
  cases hfile : env.audioInfo (audioPathOf (rawField line 1)) with
  | none =>
    rw [getAudioMeta_parse_missing env line hfile] at h
    exact Except.noConfusion h
  | some info =>
    rw [getAudioMeta_parse_ok env line info hfile] at h
    cases h
    exact ⟨info, rfl, rfl⟩

/-- Claim C5: whenever the enrichment emits a row, its `Proportion` is the
subset id computed from the raw utterance ID alone, which is always one of
`train`/`valid`/`test`: substring `T_` anywhere gives `train`, else substring
`D_` gives `valid`, else `test`. -/
theorem claim_C5 (env : Env) (line : String) (r' : Record)
    (h : getAudioMeta env (parseProtocolLine line) = .ok r') :
    getStr r' "Proportion" = (subsetOf (rawField line 1)).2 ∧
    ((subsetOf (rawField line 1)).2 = "train" ∨
     (subsetOf (rawField line 1)).2 = "valid" ∨
     (subsetOf (rawField line 1)).2 = "test") ∧
    (pyIn "T_" (rawField line 1) = true →
      (subsetOf (rawField line 1)).2 = "train") ∧
    (pyIn "T_" (rawField line 1) = false → pyIn "D_" (rawField line 1) = true →
      (subsetOf (rawField line 1)).2 = "valid") ∧
    (pyIn "T_" (rawField line 1) = false → pyIn "D_" (rawField line 1) = false →
      (subsetOf (rawField line 1)).2 = "test") := by
  obtain ⟨info, hfile, rfl⟩ := getAudioMeta_parse_ok_inv env line r' h
  refine ⟨rfl, ?_, ?_, ?_, ?_⟩
  · by_cases hT : pyIn "T_" (rawField line 1) <;>
      by_cases hD : pyIn "D_" (rawField line 1) <;>
      simp [subsetOf, hT, hD]
  · intro hT; simp [subsetOf, hT]
  · intro hT hD; simp [subsetOf, hT, hD]
  · intro hT hD; simp [subsetOf, hT, hD]

theorem claim_C5_witness :
    getStr (enrichedOf devLine devInfo) "Proportion" =
      (subsetOf (rawField devLine 1)).2 ∧
    ((subsetOf (rawField devLine 1)).2 = "train" ∨
     (subsetOf (rawField devLine 1)).2 = "valid" ∨
     (subsetOf (rawField devLine 1)).2 = "test") := by
  have h := claim_C5 envC9 devLine (enrichedOf devLine devInfo) (by rfl)
  exact ⟨h.1, h.2.1⟩

/-- Claim C10: whenever the enrichment emits a row, it keeps the parsed
`Speaker`, `Attack` and `Label` cells verbatim, rewrites `ID` by prepending
the fixed prefix, and appends exactly the eight new columns. -/
theorem claim_C10 (env : Env) (line : String) (r' : Record)
    (h : getAudioMeta env (parseProtocolLine line) = .ok r') :
    getStr r' "Speaker" = getStr (parseProtocolLine line) "Speaker" ∧
    getStr r' "Attack" = getStr (parseProtocolLine line) "Attack" ∧
    getStr r' "Label" = getStr (parseProtocolLine line) "Label" ∧
    getStr r' "ID" = ID_TAG ++ getStr (parseProtocolLine line) "ID" ∧
    r'.map Prod.fst = (parseProtocolLine line).map Prod.fst ++
      ["Duration", "SampleRate", "Path", "Proportion", "AudioChannel",
       "AudioEncoding", "AudioBitSample", "Language"] := by
  obtain ⟨info, hfile, rfl⟩ := getAudioMeta_parse_ok_inv env line r' h
  exact ⟨rfl, rfl, rfl, rfl, rfl⟩

theorem claim_C10_witness :
    getStr (enrichedOf devLine devInfo) "Speaker" =
      getStr (parseProtocolLine devLine) "Speaker" ∧
    getStr (enrichedOf devLine devInfo) "ID" =
      ID_TAG ++ getStr (parseProtocolLine devLine) "ID" := by
  have h := claim_C10 envC9 devLine (enrichedOf devLine devInfo) (by rfl)
  exact ⟨h.1, h.2.2.2.1⟩

/-- Claim C3: whenever the audio file of a row exists with header `info`, the
emitted `Duration` is `round(num_frames / sample_rate, 2)` and the emitted
`Path` is the constructed file path with its `root_folder` prefix replaced by
the literal token `$ROOT/` (provided the remainder of the path does not
itself contain the root folder string, so the `str.replace` hits exactly the
prefix). -/
theorem claim_C3 (env : Env) (line : String) (info : AudioInfo) (r' : Record)
    (hfile : env.audioInfo (audioPathOf (rawField line 1)) = some info)
    (h : getAudioMeta env (parseProtocolLine line) = .ok r')
    (hnr : pyIn root_folder (rootSuffix (rawField line 1)) = false) :
    getField r' "Duration" =
      some (.vRat (round2 ((info.num_frames : ℚ) / (info.sample_rate : ℚ)))) ∧
    getField r' "Path" =
      some (.vStr ("$ROOT/" ++ rootSuffix (rawField line 1))) := by
  obtain ⟨info2, hfile2, rfl⟩ := getAudioMeta_parse_ok_inv env line r' h
  rw [hfile] at hfile2
  cases hfile2
  have hpath : pyReplace (audioPathOf (rawField line 1)) root_folder "$ROOT/"
      = "$ROOT/" ++ rootSuffix (rawField line 1) := by
    rw [audioPathOf_decomp]
    exact pyReplace_head root_folder "$ROOT/" (rootSuffix (rawField line 1))
      (by decide) hnr
  refine ⟨rfl, ?_⟩
  calc getField (enrichedOf line info) "Path"
      = some (.vStr (pyReplace (audioPathOf (rawField line 1))
          root_folder "$ROOT/")) := rfl
    _ = some (.vStr ("$ROOT/" ++ rootSuffix (rawField line 1))) := by
          rw [hpath]

/-- Claim C3 is false as literally stated: `str.replace` replaces every
occurrence of the data root, not only the prefix, so a row whose utterance ID
itself contains `./dataset` gets its ID rewritten too, and the emitted `Path`
differs from the path with only its data-root prefix replaced. -/
theorem claim_C3_counterexample :
    getAudioMeta envC3 (parseProtocolLine evilLine) =
      .ok (enrichedOf evilLine devInfo) ∧
    getField (enrichedOf evilLine devInfo) "Path" ≠
      some (.vStr ("$ROOT/" ++ rootSuffix (rawField evilLine 1))) :=
  ⟨by rfl, by decide⟩

theorem claim_C3_witness :
    getField (enrichedOf devLine devInfo) "Duration" =
      some (.vRat (round2 ((devInfo.num_frames : ℚ) / (devInfo.sample_rate : ℚ)))) ∧
    getField (enrichedOf devLine devInfo) "Path" =
      some (.vStr ("$ROOT/" ++ rootSuffix (rawField devLine 1))) :=
  claim_C3 envC9 devLine devInfo (enrichedOf devLine devInfo)
    (by rfl) (by rfl) (by decide)

/-- Claim C6: whenever `write_csv` succeeds, the header row is exactly the
fixed twelve-column list, regardless of the column order of the records; `UN`
is not among the output columns, and every data row has exactly the twelve
selected cells. -/
theorem claim_C6 (records : List Record) (csv : Csv)
    (h : write_csv records = .ok csv) :
    csv.headerRow = ["ID", "Label", "Duration", "SampleRate", "Path", "Attack",
      "Speaker", "Proportion", "AudioChannel", "AudioEncoding",
      "AudioBitSample", "Language"] ∧
    "UN" ∉ csv.headerRow ∧
    ∀ row ∈ csv.rows, row.length = 12 := by
  unfold write_csv at h
  split at h
  · cases h
    refine ⟨rfl, ?_, ?_⟩
    · show "UN" ∉ csvHeader
      decide
    intro row hrow
    simp only [List.mem_map] at hrow
    obtain ⟨r, _, rfl⟩ := hrow
    simp [csvHeader]
  · exact Except.noConfusion h

theorem claim_C6_witness :
    write_csv [recScrambled] = .ok csv6 ∧
    csv6.headerRow = ["ID", "Label", "Duration", "SampleRate", "Path", "Attack",
      "Speaker", "Proportion", "AudioChannel", "AudioEncoding",
      "AudioBitSample", "Language"] ∧
    "UN" ∉ csv6.headerRow := by
  have h := claim_C6 [recScrambled] csv6 (by rfl)
  exact ⟨by rfl, h.1, h.2.1⟩

/-- Claim C7: a protocol file that does not exist is skipped entirely — the
main loop behaves exactly as if that file were removed from the list, so none
of its rows appear and the remaining protocol files are still processed. -/
theorem claim_C7 (env : Env) (f : String) (hf : f ∈ protocol_files)
    (hmiss : env.protocolLines (protoPath f) = none) :
    combinedMetadata env = mainLoop env (protocol_files.erase f) := by
  fin_cases hf
  · rw [show protocol_files.erase "ASVspoof2019.LA.cm.train.trn.txt" =
      ["ASVspoof2019.LA.cm.dev.trl.txt", "ASVspoof2019.LA.cm.eval.trl.txt"]
      from rfl]
    exact mainLoop_skip env _ _ hmiss
  · rw [show protocol_files.erase "ASVspoof2019.LA.cm.dev.trl.txt" =
      ["ASVspoof2019.LA.cm.train.trn.txt", "ASVspoof2019.LA.cm.eval.trl.txt"]
      from rfl]
    exact mainLoop_congr_tail env _ _ _ (mainLoop_skip env _ _ hmiss)
  · rw [show protocol_files.erase "ASVspoof2019.LA.cm.eval.trl.txt" =
      ["ASVspoof2019.LA.cm.train.trn.txt", "ASVspoof2019.LA.cm.dev.trl.txt"]
      from rfl]
    exact mainLoop_congr_tail env _ _ _
      (mainLoop_congr_tail env _ _ _ (mainLoop_skip env _ _ hmiss))

theorem claim_C7_witness :
    "ASVspoof2019.LA.cm.dev.trl.txt" ∈ protocol_files ∧
    combinedMetadata envC7 =
      mainLoop envC7 (protocol_files.erase "ASVspoof2019.LA.cm.dev.trl.txt") :=
  ⟨by decide, claim_C7 envC7 "ASVspoof2019.LA.cm.dev.trl.txt" (by decide) (by rfl)⟩

theorem mainLoop_nil (env : Env) : mainLoop env [] = .ok [] := rfl

theorem read_protocol_length (lines : List String) :
    (read_protocol lines).length = lines.length := by
  simp [read_protocol]

theorem read_protocol_get (lines : List String) (i : Nat)
    (hi : i < lines.length) (hi2 : i < (read_protocol lines).length) :
    (read_protocol lines).get ⟨i, hi2⟩ =
      parseProtocolLine (lines.get ⟨i, hi⟩) := by
  simp [read_protocol]

/-- Claim C8: when all three protocol files exist and every row enrichment
succeeds, the accumulated records are exactly the enriched train rows, then
the dev rows, then the eval rows, each file keeping its original line order
and line count (row `i` of the output of a file is the enrichment of line `i`
of that file). -/
theorem claim_C8 (env : Env) (t d e : List String) (lt ld le : List Record)
    (ht : env.protocolLines (protoPath "ASVspoof2019.LA.cm.train.trn.txt") = some t)
    (hd : env.protocolLines (protoPath "ASVspoof2019.LA.cm.dev.trl.txt") = some d)
    (he : env.protocolLines (protoPath "ASVspoof2019.LA.cm.eval.trl.txt") = some e)
    (hct : collect_audio_metadata env (read_protocol t) = .ok lt)
    (hcd : collect_audio_metadata env (read_protocol d) = .ok ld)
    (hce : collect_audio_metadata env (read_protocol e) = .ok le) :
    combinedMetadata env =
      .ok (lt.map (fun r => dropField r "UN") ++
           ld.map (fun r => dropField r "UN") ++
           le.map (fun r => dropField r "UN")) ∧
    lt.length = t.length ∧ ld.length = d.length ∧ le.length = e.length ∧
    (∀ i (hi : i < t.length) (hi' : i < lt.length),
      getAudioMeta env (parseProtocolLine (t.get ⟨i, hi⟩)) =
        .ok (lt.get ⟨i, hi'⟩)) ∧
    (∀ i (hi : i < d.length) (hi' : i < ld.length),
      getAudioMeta env (parseProtocolLine (d.get ⟨i, hi⟩)) =
        .ok (ld.get ⟨i, hi'⟩)) ∧
    (∀ i (hi : i < e.length) (hi' : i < le.length),
      getAudioMeta env (parseProtocolLine (e.get ⟨i, hi⟩)) =
        .ok (le.get ⟨i, hi'⟩)) := by
  have hfrt : fileRecords env "ASVspoof2019.LA.cm.train.trn.txt" =
      .ok (lt.map (fun r => dropField r "UN")) := by
    simp only [fileRecords, ht, hct]
  have hfrd : fileRecords env "ASVspoof2019.LA.cm.dev.trl.txt" =
      .ok (ld.map (fun r => dropField r "UN")) := by
    simp only [fileRecords, hd, hcd]
  have hfre : fileRecords env "ASVspoof2019.LA.cm.eval.trl.txt" =
      .ok (le.map (fun r => dropField r "UN")) := by
    simp only [fileRecords, he, hce]
  refine ⟨?_, ?_, ?_, ?_, ?_, ?_, ?_⟩
  · show mainLoop env protocol_files = _
    rw [show protocol_files = "ASVspoof2019.LA.cm.train.trn.txt" ::
      "ASVspoof2019.LA.cm.dev.trl.txt" :: "ASVspoof2019.LA.cm.eval.trl.txt" ::
      ([] : List String) from rfl]
    rw [mainLoop_cons, hfrt, mainLoop_cons, hfrd, mainLoop_cons, hfre,
      mainLoop_nil]
    simp [List.append_assoc]
  · rw [collect_ok_length env _ _ hct, read_protocol_length]
  · rw [collect_ok_length env _ _ hcd, read_protocol_length]
  · rw [collect_ok_length env _ _ hce, read_protocol_length]
  · intro i hi hi'
    have hi2 : i < (read_protocol t).length := by
      rw [read_protocol_length]; exact hi
    have := collect_ok_get env (read_protocol t) lt hct i hi2 hi'
    rwa [read_protocol_get t i hi hi2] at this
  · intro i hi hi'
    have hi2 : i < (read_protocol d).length := by
      rw [read_protocol_length]; exact hi
    have := collect_ok_get env (read_protocol d) ld hcd i hi2 hi'
    rwa [read_protocol_get d i hi hi2] at this
  · intro i hi hi'
    have hi2 : i < (read_protocol e).length := by
      rw [read_protocol_length]; exact hi
    have := collect_ok_get env (read_protocol e) le hce i hi2 hi'
    rwa [read_protocol_get e i hi hi2] at this

theorem claim_C8_witness :
    combinedMetadata env8 =
      .ok ([enrichedOf trainLine devInfo].map (fun r => dropField r "UN") ++
           [enrichedOf devLine devInfo].map (fun r => dropField r "UN") ++
           [enrichedOf evalLine devInfo].map (fun r => dropField r "UN")) :=
  (claim_C8 env8 [trainLine] [devLine] [evalLine]
    [enrichedOf trainLine devInfo] [enrichedOf devLine devInfo]
    [enrichedOf evalLine devInfo]
    (by rfl) (by rfl) (by rfl) (by rfl) (by rfl) (by rfl)).1

end ASVspoof2019LA
